import Mathlib

/-
  Shallow embedding of the carousel widget implemented in
  src/library/js/carousel.js.

  The DOM-facing parts of the source (element creation, style and class
  writes, ARIA toggling, event wiring, geometry measurement) are not
  modelled.  The embedded definitions cover the state machine: the state
  object built by initState/buildFrames, the index synchronizer
  syncState, the animating flag and its completion listener, the
  navigation methods and button disabling, and the option/state update
  API.  Publish/subscribe event-bus calls in the source are no-ops for
  the modelled state and are omitted throughout.
-/

namespace CarouselJS

variable {α : Type} {β : Type}

/-- JS Math.ceil(a / b) on two integers, as used by the source for frame
counts (Math.ceil(curTileLength / tilesPerFrame)) and frame indices
(Math.ceil(index / tilesPerFrame)).  For b > 0 this is the ceiling of
the rational a / b, since Int.fdiv is floor division.  (For b = 0 the
source would produce Infinity; no modelled claim divides by zero.) -/
def ceilDivInt (a b : Int) : Int := -((-a).fdiv b)

/-- JS bracket indexing arr[i]: a negative or out-of-range index yields
undefined, modelled as none. -/
def getInt? (l : List α) (i : Int) : Option α :=
  if i < 0 then none else l.get? i.toNat

/-- Array.prototype.slice.call(arr, start, stop): a negative position
counts from the end of the array, and both positions are clamped to
[0, length]; the result is the elements from the first position up to
(excluding) the second. -/
def jsSlice (l : List α) (start stop : Int) : List α :=
  let len : Int := l.length
  let s := if start < 0 then max (len + start) 0 else min start len
  let e := if stop < 0 then max (len + stop) 0 else min stop len
  (l.drop s.toNat).take (e - s).toNat

/-- The option fields of the carousel that the embedded state machine
reads (the `defaults` object in the source).  Purely presentational
options (prevText, nextText, wrapperDelta, viewportDelta, accessible,
wrapperClass, tileClass) and the host callbacks (preFrameChange,
postFrameChange, ready) only affect the DOM and are omitted.
tilesPerFrame is an integer because setup() runs the option through
parseInt. -/
structure COptions where
  tilesPerFrame : Int
  incrementMode : String
  wrapControls : Bool
  preventNavDisable : Bool
  deriving Repr, DecidableEq

/-- The source's `defaults` object, restricted to the modelled fields. -/
def defaults : COptions :=
  { tilesPerFrame := 1
    incrementMode := "frame"
    wrapControls := false
    preventNavDisable := false }

/-- The carousel state object (the `state` literal in initState together
with the fields buildFrames adds), restricted to the fields the state
machine reads or writes.  Fields that can hold the JS values false or
undefined as well as a number, element or array are modelled with
Option.  `tileObj` is kept as an alias of `tileArr` by the source and is
modelled by the single field tileArr.  The geometry fields other than
tileWidth and offset (tilePercent, trackPercent, trackWidth, frameWidth,
tileHeight, spacers) are DOM measurements no modelled computation
depends on, and the DOM references (`dom`, origWrapperClass) are
omitted. -/
structure CState (α : Type) where
  index : Int
  offset : Int
  prevIndex : Option Int
  tileArr : List α
  origTileLength : Nat
  curTileLength : Nat
  curTile : Option α
  prevTile : Option α
  frameArr : List (List α)
  origFrameLength : Int
  curFrameLength : Int
  curFrame : Option (List α)
  prevFrame : Option (List α)
  frameIndex : Int
  frameNumber : Int
  prevFrameIndex : Int
  prevFrameNumber : Int
  tileDelta : Int
  tileWidth : Int
  deriving Repr, DecidableEq

/-- One carousel instance: its state object, its options, the
cacheObj 'animating' flag, and the disabled flags of the previous/next
buttons. -/
structure Carousel (α : Type) where
  state : CState α
  options : COptions
  animating : Bool
  prevDisabled : Bool
  nextDisabled : Bool
  deriving Repr, DecidableEq

/-- `updateNavigation`: returns immediately when preventNavDisable is
set (leaving both buttons as they are); otherwise the previous button
is disabled exactly when index is 0 and the next button exactly when
index + tilesPerFrame >= curTileLength. -/
def updateNavigation (c : Carousel α) : Carousel α :=
  let index := c.state.index
  let isFirst := index == 0
  let isLast := decide ((c.state.curTileLength : Int) ≤ index + c.options.tilesPerFrame)
  if c.options.preventNavDisable then c
  else { c with prevDisabled := isFirst, nextDisabled := isLast }

/-- `buildNavigation`: the buttons are created afresh (enabled); both
are disabled when curTileLength <= tilesPerFrame ("only one frame"),
and the previous button is additionally disabled when index is 0 unless
preventNavDisable is set.  The DOM insertion of the controls and the
click-event wiring are host effects. -/
def buildNavigation (c : Carousel α) : Carousel α :=
  let oneFrame := decide ((c.state.curTileLength : Int) ≤ c.options.tilesPerFrame)
  let prevDis := oneFrame
  let nextDis := oneFrame
  let prevDis := if !c.options.preventNavDisable && c.state.index == 0 then true else prevDis
  { c with prevDisabled := prevDis, nextDisabled := nextDis }

/-- `rebuildNavigation`: tears down the controls wrapper (a DOM
operation) and calls buildNavigation again; after init the wrapper
always exists, so the guard is always taken. -/
def rebuildNavigation (c : Carousel α) : Carousel α := buildNavigation c

/-- The completion `listener` installed by animate: clears the
animating flag.  The class toggling and the postFrameChange host
callback it also performs do not touch the modelled state. -/
def listener (c : Carousel α) : Carousel α := { c with animating := false }

/-- `animate`: sets the cached animating flag, fires preFrameChange (a
host callback, not modelled), toggles tile classes (DOM), refreshes the
navigation buttons, and starts the CSS transition (or the timer-driven
fallback) whose completion runs `listener`. -/
def animate (c : Carousel α) : Carousel α :=
  updateNavigation { c with animating := true }

/-- `syncState(index, animate)`: refuses to run while the animating
flag is set; otherwise clamps the requested index (upper bound
curTileLength - tilesPerFrame checked first, then the lower bound 0),
recomputes the frame index and the current/previous tile and frame
references, merges them into the state (the source routes this record
update through this.updateState with a fully populated object), and
then either animates or repositions (updatePosition is DOM-only).  The
parameter named `animate` in the source is called animateFlag here so
that the method `animate` remains referable.  In the source the
curFrame slice start is the ternary `isLastFrame ? index : index`,
whose branches are both index; it is kept verbatim. -/
def syncState (c : Carousel α) (index : Int) (animateFlag : Bool) : Carousel α :=
  if c.animating then c
  else
    let state := c.state
    let options := c.options
    let tilesPerFrame := options.tilesPerFrame
    let index' :=
      if index > (state.curTileLength : Int) - tilesPerFrame then
        (state.curTileLength : Int) - tilesPerFrame
      else if index < 0 then 0
      else index
    let frameIndex := ceilDivInt index' tilesPerFrame
    let frameNumber := frameIndex + 1
    let isLastFrame := index' == (state.curTileLength : Int) - tilesPerFrame
    let newState := { state with
      index := index'
      offset := state.tileWidth * index'
      prevIndex := some state.index
      prevTile := state.curTile
      curTile :=
        if isLastFrame && (state.tileDelta != 0) && (options.incrementMode == "frame") then
          getInt? state.tileArr (index' + state.tileDelta)
        else
          getInt? state.tileArr index'
      curFrame := some (jsSlice state.tileArr (if isLastFrame then index' else index')
        (tilesPerFrame + index'))
      prevFrame := state.curFrame
      frameIndex := frameIndex
      frameNumber := frameNumber
      prevFrameIndex := state.frameIndex
      prevFrameNumber := state.frameNumber }
    let c' := { c with state := newState }
    if animateFlag then CarouselJS.animate c' else c'

/-- The frame-building loop of `buildFrames`: for sec = 0, 1, ... while
sec < tileArr.length / tilesPerFrame (IEEE division in the source),
push slice(tilesPerFrame * sec, tilesPerFrame * (sec + 1)).  The guard
is modelled as 0 < tilesPerFrame together with
sec * tilesPerFrame < tileArr.length, which agrees with the source
whenever the source loop terminates (for tilesPerFrame = 0 the source
loop never ends; that degenerate case is outside the model).  The loop
is modelled with a fuel argument; tileArr.length iterations always
suffice, because the guard forces sec < tileArr.length. -/
def buildFramesGo (tileArr : List α) (tilesPerFrame : Int) (sec : Nat) : Nat → List (List α)
  | 0 => []
  | fuel + 1 =>
    if 0 < tilesPerFrame ∧ (sec : Int) * tilesPerFrame < (tileArr.length : Int) then
      jsSlice tileArr (tilesPerFrame * sec) (tilesPerFrame * (sec + 1))
        :: buildFramesGo tileArr tilesPerFrame (sec + 1) fuel
    else []

/-- The frameArr produced by the loop in `buildFrames`. -/
def buildFramesArr (tileArr : List α) (tilesPerFrame : Int) : List (List α) :=
  buildFramesGo tileArr tilesPerFrame 0 tileArr.length

/-- `buildFrames`: rebuilds frameArr and the frame-derived state
fields.  The calls that only touch the DOM (toggleAria, the wrapper
class write, calcDimensions / updateDimensions / updatePosition and the
current-frame visibility computation at the end) are omitted.  The
source also re-measures tileWidth/tileHeight from the rendered first
tile; the model keeps the stored tileWidth.  The source computes offset
with IEEE division (tileWidth / tilesPerFrame) * index; it is modelled
with integer division, and no claim depends on its value. -/
def buildFrames (c : Carousel α) : Carousel α :=
  let state := c.state
  let tileArr := state.tileArr
  let tilesPerFrame := c.options.tilesPerFrame
  let frameArr := buildFramesArr tileArr tilesPerFrame
  let curTileLength := tileArr.length
  let curFrameLength := ceilDivInt curTileLength tilesPerFrame
  let frameIndex := ceilDivInt state.index tilesPerFrame
  let newState := { state with
    frameArr := frameArr
    curTile := getInt? tileArr state.index
    curTileLength := curTileLength
    curFrameLength := curFrameLength
    frameIndex := frameIndex
    frameNumber := frameIndex + 1
    prevFrameIndex := frameIndex
    prevFrameNumber := frameIndex + 1
    curFrame := getInt? frameArr frameIndex
    tileDelta := tilesPerFrame * curFrameLength - curTileLength
    offset := if state.index == 0 then 0 else state.tileWidth / tilesPerFrame * state.index }
  { c with state := newState }

/-- `initState`: the initial state literal, followed by the buildFrames
call.  Fields holding JS false in the literal (prevIndex, curTile,
prevTile) are none; fields the literal leaves undefined (tileDelta,
tileWidth) start at 0 — buildFrames assigns tileDelta before any read,
and tileWidth stands for the DOM measurement the model does not
perform.  The buttons do not exist yet, so their flags start false. -/
def initState (tileArr : List α) (options : COptions) : Carousel α :=
  let frameLength := ceilDivInt tileArr.length options.tilesPerFrame
  let state : CState α := {
    index := 0
    offset := 0
    prevIndex := none
    tileArr := tileArr
    origTileLength := tileArr.length
    curTileLength := tileArr.length
    curTile := none
    prevTile := none
    frameArr := []
    origFrameLength := frameLength
    curFrameLength := frameLength
    curFrame := some []
    prevFrame := some []
    frameIndex := 0
    frameNumber := 1
    prevFrameIndex := 0
    prevFrameNumber := 1
    tileDelta := 0
    tileWidth := 0 }
  buildFrames { state := state, options := options, animating := false,
                prevDisabled := false, nextDisabled := false }

/-- `init`: initState followed by buildNavigation (the wrapper/viewport
construction, focus listeners and the ready callback are host
effects). -/
def init (tileArr : List α) (options : COptions) : Carousel α :=
  buildNavigation (initState tileArr options)

/-- A value returned by the public API: the root carousel element
(this.carousel), the options object (this.options), the state object
(this.state), or the literal false. -/
inductive ApiRet (α : Type) where
  | element
  | optionsObj (o : COptions)
  | stateObj (s : CState α)
  | jsFalse
  deriving Repr, DecidableEq

/-- A JavaScript argument as classified by Object.prototype.toString
(the source's getObjType): a plain object carries its payload (the
fields to merge); any other shape only matters through its type tag. -/
inductive JSArg (β : Type) where
  | number (n : Int)
  | strVal (s : String)
  | array
  | null
  | undefined
  | obj (payload : β)
  deriving Repr, DecidableEq

/-- `getObjType`, i.e. Object.prototype.toString.call(obj). -/
def getObjType : JSArg β → String
  | .number _ => "[object Number]"
  | .strVal _ => "[object String]"
  | .array => "[object Array]"
  | .null => "[object Null]"
  | .undefined => "[object Undefined]"
  | .obj _ => "[object Object]"

/-- A partial options object passed to updateOptions: the modelled
fields, each optionally present. -/
structure OptionsPatch where
  tilesPerFrame : Option Int := none
  incrementMode : Option String := none
  wrapControls : Option Bool := none
  preventNavDisable : Option Bool := none
  deriving Repr, DecidableEq

/-- x.extend(this.options, optsObj): fields present in the patch
overwrite the current options. -/
def extendOptions (o : COptions) (p : OptionsPatch) : COptions :=
  { tilesPerFrame := p.tilesPerFrame.getD o.tilesPerFrame
    incrementMode := p.incrementMode.getD o.incrementMode
    wrapControls := p.wrapControls.getD o.wrapControls
    preventNavDisable := p.preventNavDisable.getD o.preventNavDisable }

/-- A partial state object passed to updateState: each modelled state
field, optionally present. -/
structure StatePatch (α : Type) where
  index : Option Int := none
  offset : Option Int := none
  prevIndex : Option (Option Int) := none
  tileArr : Option (List α) := none
  origTileLength : Option Nat := none
  curTileLength : Option Nat := none
  curTile : Option (Option α) := none
  prevTile : Option (Option α) := none
  frameArr : Option (List (List α)) := none
  origFrameLength : Option Int := none
  curFrameLength : Option Int := none
  curFrame : Option (Option (List α)) := none
  prevFrame : Option (Option (List α)) := none
  frameIndex : Option Int := none
  frameNumber : Option Int := none
  prevFrameIndex : Option Int := none
  prevFrameNumber : Option Int := none
  tileDelta : Option Int := none
  tileWidth : Option Int := none
  deriving Repr, DecidableEq

/-- x.extend(this.state, stateObj): fields present in the patch
overwrite the current state (no validation — the escape hatch the spec
notes). -/
def extendState (s : CState α) (p : StatePatch α) : CState α :=
  { index := p.index.getD s.index
    offset := p.offset.getD s.offset
    prevIndex := p.prevIndex.getD s.prevIndex
    tileArr := p.tileArr.getD s.tileArr
    origTileLength := p.origTileLength.getD s.origTileLength
    curTileLength := p.curTileLength.getD s.curTileLength
    curTile := p.curTile.getD s.curTile
    prevTile := p.prevTile.getD s.prevTile
    frameArr := p.frameArr.getD s.frameArr
    origFrameLength := p.origFrameLength.getD s.origFrameLength
    curFrameLength := p.curFrameLength.getD s.curFrameLength
    curFrame := p.curFrame.getD s.curFrame
    prevFrame := p.prevFrame.getD s.prevFrame
    frameIndex := p.frameIndex.getD s.frameIndex
    frameNumber := p.frameNumber.getD s.frameNumber
    prevFrameIndex := p.prevFrameIndex.getD s.prevFrameIndex
    prevFrameNumber := p.prevFrameNumber.getD s.prevFrameNumber
    tileDelta := p.tileDelta.getD s.tileDelta
    tileWidth := p.tileWidth.getD s.tileWidth }

/-- `reinit`: rebuild the frames and the navigation controls. -/
def reinit (c : Carousel α) : Carousel α := rebuildNavigation (buildFrames c)

/-- `updateOptions(optsObj)`: for a plain object, decides whether a
tilesPerFrame change forces a rebuild, merges the patch into the
options, reinitializes if needed, and returns this.options; for any
other argument returns false. -/
def updateOptions (c : Carousel α) (optsObj : JSArg OptionsPatch) :
    Carousel α × ApiRet α :=
  if getObjType optsObj == "[object Object]" then
    match optsObj with
    | .obj p =>
      let rebuild := match p.tilesPerFrame with
        | some n => n != c.options.tilesPerFrame
        | none => false
      let c1 := { c with options := extendOptions c.options p }
      let c2 := if rebuild then reinit c1 else c1
      (c2, ApiRet.optionsObj c2.options)
    | _ => (c, ApiRet.jsFalse)
  else (c, ApiRet.jsFalse)

/-- `updateState(stateObj)`: for a plain object, merges the patch into
the state and returns this.state; for any other argument returns
false. -/
def updateState (c : Carousel α) (stateObj : JSArg (StatePatch α)) :
    Carousel α × ApiRet α :=
  if getObjType stateObj == "[object Object]" then
    match stateObj with
    | .obj p =>
      let s := extendState c.state p
      ({ c with state := s }, ApiRet.stateObj s)
    | _ => (c, ApiRet.jsFalse)
  else (c, ApiRet.jsFalse)

/-- `prevFrame()`: step the index back by one tile or one frame and
synchronize (with animation); returns this.carousel. -/
def prevFrame (c : Carousel α) : Carousel α × ApiRet α :=
  let index := c.state.index
  let index :=
    if c.options.incrementMode == "tile" then index - 1
    else index - c.options.tilesPerFrame
  (syncState c index true, ApiRet.element)

/-- `nextFrame()`: step the index forward by one tile or one frame and
synchronize (with animation); returns this.carousel. -/
def nextFrame (c : Carousel α) : Carousel α × ApiRet α :=
  let index := c.state.index
  let index :=
    if c.options.incrementMode == "tile" then index + 1
    else index + c.options.tilesPerFrame
  (syncState c index true, ApiRet.element)

/-- `jumpToFrame(frame)`: the argument is run through
parseInt(frame, 10), modelled by taking an integer argument.  In frame
mode the target tile index is frame * tilesPerFrame - tilesPerFrame, in
tile mode the argument itself; a negative target is floored to 0.  The
call returns this.carousel without synchronizing when in tile mode the
target equals the current index, or in frame mode the frame number
exceeds curFrameLength; otherwise it synchronizes (with animation) and
returns this.carousel. -/
def jumpToFrame (c : Carousel α) (frame : Int) : Carousel α × ApiRet α :=
  let options := c.options
  let tilesPerFrame := options.tilesPerFrame
  let index :=
    if options.incrementMode == "frame" then frame * tilesPerFrame - tilesPerFrame
    else frame
  let index := if index < 0 then 0 else index
  if (options.incrementMode == "tile" && index == c.state.index)
      || (options.incrementMode == "frame" && decide (c.state.curFrameLength < frame)) then
    (c, ApiRet.element)
  else
    (syncState c index true, ApiRet.element)

/-- `reset()`: synchronize to index 0 (with animation); returns
this.carousel. -/
def reset (c : Carousel α) : Carousel α × ApiRet α :=
  (syncState c 0 true, ApiRet.element)

/-- One externally triggered step, for reasoning about sequences of
calls: a next/prev navigation request or the animation-completion
listener firing. -/
inductive NavOp where
  | next
  | prev
  | animEnd
  deriving Repr, DecidableEq

/-- Apply one step to the carousel. -/
def applyOp (c : Carousel α) : NavOp → Carousel α
  | .next => (nextFrame c).1
  | .prev => (prevFrame c).1
  | .animEnd => listener c

/-- Apply a sequence of steps, oldest first. -/
def applyOps (c : Carousel α) : List NavOp → Carousel α
  | [] => c
  | op :: ops => applyOps (applyOp c op) ops

/-- Five tiles (numbered 0 to 4), two tiles per frame, frame increment
mode: the example of the spec (frames [[0,1],[2,3],[4]], tileDelta 1). -/
def carFive : Carousel Nat := init [0, 1, 2, 3, 4] { defaults with tilesPerFrame := 2 }

/-- A single tile with two tiles per frame: fewer tiles than the frame
size. -/
def carOne : Carousel Nat := init [0] { defaults with tilesPerFrame := 2 }

/-- As carOne, but with preventNavDisable set. -/
def carOnePrevent : Carousel Nat :=
  init [0] { defaults with tilesPerFrame := 2, preventNavDisable := true }

/-- Five tiles, two per frame, tile increment mode. -/
def carTile : Carousel Nat :=
  init [0, 1, 2, 3, 4] { defaults with tilesPerFrame := 2, incrementMode := "tile" }

/-- carFive mid-transition: the animating flag is set. -/
def carBusy : Carousel Nat := { carFive with animating := true }


theorem updateNavigation_state (c : Carousel α) : (updateNavigation c).state = c.state := by
  unfold updateNavigation; split <;> rfl

theorem updateNavigation_options (c : Carousel α) : (updateNavigation c).options = c.options := by
  unfold updateNavigation; split <;> rfl

theorem updateNavigation_animating (c : Carousel α) :
    (updateNavigation c).animating = c.animating := by
  unfold updateNavigation; split <;> rfl

theorem animate_state (c : Carousel α) : (animate c).state = c.state := by
  unfold animate; rw [updateNavigation_state]

theorem animate_options (c : Carousel α) : (animate c).options = c.options := by
  unfold animate; rw [updateNavigation_options]

theorem animate_animating (c : Carousel α) : (animate c).animating = true := by
  unfold animate; rw [updateNavigation_animating]

theorem syncState_noop (c : Carousel α) (i : Int) (b : Bool) (h : c.animating = true) :
    syncState c i b = c := by
  unfold syncState; rw [if_pos h]

theorem syncState_state (c : Carousel α) (i : Int) (b : Bool) (h : c.animating = false) :
    (syncState c i b).state =
      (fun index' =>
        { c.state with
          index := index'
          offset := c.state.tileWidth * index'
          prevIndex := some c.state.index
          prevTile := c.state.curTile
          curTile :=
            if (index' == (c.state.curTileLength : Int) - c.options.tilesPerFrame)
                && (c.state.tileDelta != 0) && (c.options.incrementMode == "frame") then
              getInt? c.state.tileArr (index' + c.state.tileDelta)
            else getInt? c.state.tileArr index'
          curFrame := some (jsSlice c.state.tileArr index'
            (c.options.tilesPerFrame + index'))
          prevFrame := c.state.curFrame
          frameIndex := ceilDivInt index' c.options.tilesPerFrame
          frameNumber := ceilDivInt index' c.options.tilesPerFrame + 1
          prevFrameIndex := c.state.frameIndex
          prevFrameNumber := c.state.frameNumber })
      (if i > (c.state.curTileLength : Int) - c.options.tilesPerFrame then
          (c.state.curTileLength : Int) - c.options.tilesPerFrame
        else if i < 0 then 0 else i) := by
  unfold syncState
  rw [if_neg (by simp [h])]
  cases b
  · rw [if_neg (by simp)]
    simp only [ite_self]
  · rw [if_pos rfl]
    rw [animate_state]
    simp only [ite_self]

theorem syncState_options (c : Carousel α) (i : Int) (b : Bool) :
    (syncState c i b).options = c.options := by
  unfold syncState
  split
  · rfl
  · cases b
    · rw [if_neg (by simp)]
    · rw [if_pos rfl, animate_options]

theorem syncState_curTileLength (c : Carousel α) (i : Int) (b : Bool) :
    (syncState c i b).state.curTileLength = c.state.curTileLength := by
  cases hb : c.animating
  · rw [syncState_state c i b hb]
  · rw [syncState_noop c i b hb]

theorem syncState_tileArr (c : Carousel α) (i : Int) (b : Bool) :
    (syncState c i b).state.tileArr = c.state.tileArr := by
  cases hb : c.animating
  · rw [syncState_state c i b hb]
  · rw [syncState_noop c i b hb]

theorem syncState_index (c : Carousel α) (i : Int) (b : Bool) (h : c.animating = false) :
    (syncState c i b).state.index =
      if i > (c.state.curTileLength : Int) - c.options.tilesPerFrame then
        (c.state.curTileLength : Int) - c.options.tilesPerFrame
      else if i < 0 then 0 else i := by
  rw [syncState_state c i b h]

theorem syncState_curFrame (c : Carousel α) (i : Int) (b : Bool) (h : c.animating = false) :
    (syncState c i b).state.curFrame =
      some (jsSlice c.state.tileArr
        (if i > (c.state.curTileLength : Int) - c.options.tilesPerFrame then
            (c.state.curTileLength : Int) - c.options.tilesPerFrame
          else if i < 0 then 0 else i)
        (c.options.tilesPerFrame +
          (if i > (c.state.curTileLength : Int) - c.options.tilesPerFrame then
              (c.state.curTileLength : Int) - c.options.tilesPerFrame
            else if i < 0 then 0 else i))) := by
  rw [syncState_state c i b h]

theorem nextFrame_fst (c : Carousel α) :
    (nextFrame c).1 = syncState c
      (if c.options.incrementMode == "tile" then c.state.index + 1
        else c.state.index + c.options.tilesPerFrame) true := rfl

theorem prevFrame_fst (c : Carousel α) :
    (prevFrame c).1 = syncState c
      (if c.options.incrementMode == "tile" then c.state.index - 1
        else c.state.index - c.options.tilesPerFrame) true := rfl

theorem syncState_index_bounds (d : Carousel α) (i : Int) (b : Bool)
    (hTF : d.options.tilesPerFrame ≤ (d.state.curTileLength : Int))
    (hl : 0 ≤ d.state.index)
    (hu : d.state.index ≤ (d.state.curTileLength : Int) - d.options.tilesPerFrame) :
    0 ≤ (syncState d i b).state.index ∧
    (syncState d i b).state.index ≤ (d.state.curTileLength : Int) - d.options.tilesPerFrame := by
  cases hd : d.animating
  · rw [syncState_index d i b hd]
    split_ifs <;> omega
  · rw [syncState_noop d i b hd]
    exact ⟨hl, hu⟩

/-- Claim C1, counterexample: with T = 1 tile and F = 2 tiles per frame
(curTileLength < tilesPerFrame) and no animation in flight, the
requested index 5 is synchronized to -1 = T - F, which does not lie in
the interval [0, T - F]; the claim's universal clamp therefore fails
when the frame size exceeds the tile count. -/
theorem syncState_clamp_fails_when_frame_exceeds_tiles :
    (syncState carOne 5 false).state.index = -1 ∧
    ¬ (0 ≤ (syncState carOne 5 false).state.index ∧
        (syncState carOne 5 false).state.index ≤
          (carOne.state.curTileLength : Int) - carOne.options.tilesPerFrame) := by
  decide

/-- Claim C1 (amended: additionally assuming tilesPerFrame ≤
curTileLength): with no animation in flight, syncState leaves
state.index in [0, T - F] for every requested integer; and from any
index already in that interval, no sequence of nextFrame / prevFrame
requests (with animation completions interleaved arbitrarily) ever
moves the index above T - F or below 0. -/
theorem index_clamped_and_nav_bounded (c : Carousel α)
    (hanim : c.animating = false)
    (hTF : c.options.tilesPerFrame ≤ (c.state.curTileLength : Int)) :
    (∀ (i : Int) (a : Bool),
        0 ≤ (syncState c i a).state.index ∧
        (syncState c i a).state.index ≤
          (c.state.curTileLength : Int) - c.options.tilesPerFrame) ∧
    (0 ≤ c.state.index →
      c.state.index ≤ (c.state.curTileLength : Int) - c.options.tilesPerFrame →
      ∀ ops : List NavOp,
        0 ≤ (applyOps c ops).state.index ∧
        (applyOps c ops).state.index ≤
          (c.state.curTileLength : Int) - c.options.tilesPerFrame) := by
  constructor
  · intro i a
    rw [syncState_index c i a hanim]
    split_ifs <;> omega
  · intro h0 h1 ops
    suffices H : ∀ (ops : List NavOp) (d : Carousel α),
        d.state.curTileLength = c.state.curTileLength →
        d.options.tilesPerFrame = c.options.tilesPerFrame →
        0 ≤ d.state.index →
        d.state.index ≤ (c.state.curTileLength : Int) - c.options.tilesPerFrame →
        0 ≤ (applyOps d ops).state.index ∧
        (applyOps d ops).state.index ≤
          (c.state.curTileLength : Int) - c.options.tilesPerFrame by
      exact H ops c rfl rfl h0 h1
    intro ops
    induction ops with
    | nil => intro d _ _ hl hu; exact ⟨hl, hu⟩
    | cons op ops ih =>
      intro d hT hF hl hu
      have hsync : ∀ (j : Int),
          d.state.curTileLength = c.state.curTileLength →
          (syncState d j true).state.curTileLength = c.state.curTileLength ∧
          (syncState d j true).options.tilesPerFrame = c.options.tilesPerFrame ∧
          0 ≤ (syncState d j true).state.index ∧
          (syncState d j true).state.index ≤
            (c.state.curTileLength : Int) - c.options.tilesPerFrame := by
        intro j hT'
        have hb := syncState_index_bounds d j true (by rw [hT, hF]; exact hTF)
          hl (by rw [hT, hF]; exact hu)
        refine ⟨?_, ?_, hb.1, ?_⟩
        · rw [syncState_curTileLength]; exact hT
        · rw [syncState_options]; exact hF
        · have := hb.2; rw [hT, hF] at this; exact this
      cases op with
      | next =>
        have h := hsync (if d.options.incrementMode == "tile" then d.state.index + 1
          else d.state.index + d.options.tilesPerFrame) hT
        exact ih _ (by rw [applyOp, nextFrame_fst]; exact h.1)
          (by rw [applyOp, nextFrame_fst]; exact h.2.1)
          (by rw [applyOp, nextFrame_fst]; exact h.2.2.1)
          (by rw [applyOp, nextFrame_fst]; exact h.2.2.2)
      | prev =>
        have h := hsync (if d.options.incrementMode == "tile" then d.state.index - 1
          else d.state.index - d.options.tilesPerFrame) hT
        exact ih _ (by rw [applyOp, prevFrame_fst]; exact h.1)
          (by rw [applyOp, prevFrame_fst]; exact h.2.1)
          (by rw [applyOp, prevFrame_fst]; exact h.2.2.1)
          (by rw [applyOp, prevFrame_fst]; exact h.2.2.2)
      | animEnd =>
        exact ih _ hT hF hl hu

/-- Witness for the amended claim C1 at the concrete carousel with five
tiles and two tiles per frame. -/
theorem index_clamped_and_nav_bounded_inst :
    (∀ (i : Int) (a : Bool),
        0 ≤ (syncState carFive i a).state.index ∧
        (syncState carFive i a).state.index ≤
          (carFive.state.curTileLength : Int) - carFive.options.tilesPerFrame) ∧
    (0 ≤ carFive.state.index →
      carFive.state.index ≤ (carFive.state.curTileLength : Int) - carFive.options.tilesPerFrame →
      ∀ ops : List NavOp,
        0 ≤ (applyOps carFive ops).state.index ∧
        (applyOps carFive ops).state.index ≤
          (carFive.state.curTileLength : Int) - carFive.options.tilesPerFrame) :=
  index_clamped_and_nav_bounded carFive (by decide) (by decide)

/-- Claim C3: while the animating flag is set, every navigation request
(nextFrame, prevFrame, jumpToFrame, reset, or a direct syncState call)
leaves the carousel completely unchanged — the request is dropped, not
queued; the flag itself is set when animate() starts and cleared only
by its completion listener. -/
theorem nav_noop_while_animating (c : Carousel α) (h : c.animating = true)
    (i : Int) (a : Bool) (n : Int) :
    syncState c i a = c ∧
    (nextFrame c).1 = c ∧
    (prevFrame c).1 = c ∧
    (jumpToFrame c n).1 = c ∧
    (reset c).1 = c ∧
    (animate c).animating = true ∧
    (listener (animate c)).animating = false := by
  have hs : ∀ (j : Int) (b : Bool), syncState c j b = c := fun j b => syncState_noop c j b h
  refine ⟨hs i a, ?_, ?_, ?_, hs 0 true, ?_, rfl⟩
  · rw [nextFrame_fst]; exact hs _ _
  · rw [prevFrame_fst]; exact hs _ _
  · simp only [jumpToFrame]
    split <;> split <;> split <;> first | rfl | exact hs _ _
  · rw [animate_animating]

/-- Witness for claim C3 at a concrete mid-animation carousel. -/
theorem nav_noop_while_animating_inst :
    carBusy.animating = true ∧
    (syncState carBusy 4 false = carBusy ∧
      (nextFrame carBusy).1 = carBusy ∧
      (prevFrame carBusy).1 = carBusy ∧
      (jumpToFrame carBusy 2).1 = carBusy ∧
      (reset carBusy).1 = carBusy ∧
      (animate carBusy).animating = true ∧
      (listener (animate carBusy)).animating = false) :=
  ⟨by decide, nav_noop_while_animating carBusy (by decide) 4 false 2⟩

/-- Claim C7: updateOptions and updateState return false (and change
nothing) when the argument is not a plain object — a number, string,
array, null or undefined; the check is total, no exception path
exists. -/
theorem update_nonobject_returns_false (c : Carousel α)
    (v : JSArg OptionsPatch) (w : JSArg (StatePatch α))
    (hv : getObjType v ≠ "[object Object]")
    (hw : getObjType w ≠ "[object Object]") :
    updateOptions c v = (c, ApiRet.jsFalse) ∧
    updateState c w = (c, ApiRet.jsFalse) := by
  constructor
  · unfold updateOptions
    rw [if_neg (by simpa using hv)]
  · unfold updateState
    rw [if_neg (by simpa using hw)]

/-- Witness for claim C7: a numeric and a null argument. -/
theorem update_nonobject_returns_false_inst :
    getObjType (JSArg.number 7 : JSArg OptionsPatch) ≠ "[object Object]" ∧
    getObjType (JSArg.null : JSArg (StatePatch Nat)) ≠ "[object Object]" ∧
    updateOptions carFive (JSArg.number 7) = (carFive, ApiRet.jsFalse) ∧
    updateState carFive (JSArg.null : JSArg (StatePatch Nat)) = (carFive, ApiRet.jsFalse) :=
  ⟨by decide, by decide,
    (update_nonobject_returns_false carFive (JSArg.number 7) JSArg.null
      (by decide) (by decide)).1,
    (update_nonobject_returns_false carFive (JSArg.number 7) JSArg.null
      (by decide) (by decide)).2⟩

/-- Claim C9, counterexample: with T = 1, F = 2 the boundary request
i = T - F = -1 is not below T - F, yet syncState sets it to 0 (the
source tests index < 0 after the upper clamp), so "only requested
indices below that value are set to 0" fails at the boundary. -/
theorem syncState_upper_clamp_at_boundary :
    (syncState carOne (-1) false).state.index = 0 ∧
    ¬ ((-1 : Int) < (carOne.state.curTileLength : Int) - carOne.options.tilesPerFrame) := by
  decide

/-- Claim C9 (amended: "at or below" in place of "below"): when
curTileLength < tilesPerFrame and no animation is in flight, the upper
clamp is applied first, so every requested index above
curTileLength - tilesPerFrame is set to that negative value (the lower
bound 0 is not then applied), and every requested index at or below it
is set to 0. -/
theorem syncState_upper_clamp_first (c : Carousel α) (i : Int) (a : Bool)
    (hanim : c.animating = false)
    (hTF : (c.state.curTileLength : Int) < c.options.tilesPerFrame) :
    ((c.state.curTileLength : Int) - c.options.tilesPerFrame < i →
        (syncState c i a).state.index =
          (c.state.curTileLength : Int) - c.options.tilesPerFrame ∧
        (syncState c i a).state.index < 0) ∧
    (i ≤ (c.state.curTileLength : Int) - c.options.tilesPerFrame →
        (syncState c i a).state.index = 0) := by
  rw [syncState_index c i a hanim]
  constructor <;> intro h
  · rw [if_pos (by omega)]
    omega
  · rw [if_neg (by omega), if_pos (by omega)]

/-- Witness for the amended claim C9: T = 1, F = 2, requests 5 and -3. -/
theorem syncState_upper_clamp_first_inst :
    ((carOne.state.curTileLength : Int) < carOne.options.tilesPerFrame) ∧
    ((syncState carOne 5 false).state.index =
        (carOne.state.curTileLength : Int) - carOne.options.tilesPerFrame ∧
      (syncState carOne 5 false).state.index < 0) ∧
    (syncState carOne (-3) false).state.index = 0 :=
  ⟨by decide,
    (syncState_upper_clamp_first carOne 5 false (by decide) (by decide)).1 (by decide),
    (syncState_upper_clamp_first carOne (-3) false (by decide) (by decide)).2 (by decide)⟩

/-- Claim C10: jumpToFrame returns the carousel element with every
state field unchanged (syncState is never reached) when in tile mode
the parsed target index (the argument, floored at 0) equals the current
state.index, or in frame mode the parsed frame number exceeds
state.curFrameLength. -/
theorem jumpToFrame_early_return_noop (c : Carousel α) (n : Int)
    (h : (c.options.incrementMode = "tile" ∧ (if n < 0 then 0 else n) = c.state.index) ∨
         (c.options.incrementMode = "frame" ∧ c.state.curFrameLength < n)) :
    jumpToFrame c n = (c, ApiRet.element) := by
  rcases h with ⟨hm, hi⟩ | ⟨hm, hn⟩
  · have h1 : (("tile" : String) == "frame") = false := by decide
    have h2 : (("tile" : String) == "tile") = true := by decide
    simp only [jumpToFrame, hm, h1, h2, Bool.false_eq_true, if_false, Bool.true_and,
      Bool.false_and, Bool.or_false, hi]
    simp
  · have h1 : (("frame" : String) == "frame") = true := by decide
    have h2 : (("frame" : String) == "tile") = false := by decide
    simp only [jumpToFrame, hm, h1, h2, decide_eq_true hn, Bool.true_and,
      Bool.false_and, Bool.false_or, Bool.and_true]
    simp

/-- Witness for claim C10: tile mode with the current index as target,
and frame mode with an over-large frame number. -/
theorem jumpToFrame_early_return_noop_inst :
    (carTile.options.incrementMode = "tile" ∧
      (if (0 : Int) < 0 then 0 else (0 : Int)) = carTile.state.index) ∧
    jumpToFrame carTile 0 = (carTile, ApiRet.element) ∧
    (carFive.options.incrementMode = "frame" ∧ carFive.state.curFrameLength < 9) ∧
    jumpToFrame carFive 9 = (carFive, ApiRet.element) :=
  ⟨⟨by decide, by decide⟩,
    jumpToFrame_early_return_noop carTile 0 (Or.inl ⟨by decide, by decide⟩),
    ⟨by decide, by decide⟩,
    jumpToFrame_early_return_noop carFive 9 (Or.inr ⟨by decide, by decide⟩)⟩

theorem jsSlice_of_nonneg (l : List α) (a b : Int) (ha : 0 ≤ a) (hb : 0 ≤ b) :
    jsSlice l a b = (l.drop a.toNat).take (b.toNat - a.toNat) := by
  simp only [jsSlice]
  rw [if_neg (by omega), if_neg (by omega)]
  rcases le_or_lt (l.length : Int) a with h | h
  · have e0 : ((l.length : Int)).toNat = l.length := Int.toNat_natCast l.length
    rw [min_eq_right h, e0, List.drop_length,
      List.drop_eq_nil_of_le (by omega : l.length ≤ a.toNat)]
    simp
  · rw [min_eq_left (le_of_lt h), List.take_eq_take]
    simp only [List.length_drop]
    omega

theorem buildFramesGo_stop (l : List α) (F : Int) (sec : Nat) (fuel : Nat)
    (h : ¬ (0 < F ∧ (sec : Int) * F < (l.length : Int))) :
    buildFramesGo l F sec fuel = [] := by
  cases fuel
  · rfl
  · unfold buildFramesGo
    rw [if_neg h]

theorem slice_chunk (l : List α) (f sec : Nat) (hf : 1 ≤ f) :
    jsSlice l ((f : Int) * (sec : Int)) ((f : Int) * ((sec : Int) + 1)) =
      (l.drop (sec * f)).take f := by
  have e1 : ((f : Int) * (sec : Int)) = ((sec * f : Nat) : Int) := by push_cast; ring
  have e2 : ((f : Int) * ((sec : Int) + 1)) = ((sec * f + f : Nat) : Int) := by
    push_cast; ring
  rw [e1, e2, jsSlice_of_nonneg l _ _ (by positivity) (by positivity),
    Int.toNat_natCast, Int.toNat_natCast]
  congr 1
  omega

theorem buildFramesGo_spec (f : Nat) (hf : 1 ≤ f) :
    ∀ (fuel sec : Nat) (l : List α),
      l.length ≤ sec * f + fuel →
      sec * f < l.length →
      (buildFramesGo l (f : Int) sec fuel).length = (l.length - sec * f + f - 1) / f ∧
      (buildFramesGo l (f : Int) sec fuel).flatten = l.drop (sec * f) ∧
      (∀ fr ∈ (buildFramesGo l (f : Int) sec fuel).dropLast, fr.length = f) ∧
      (∃ lastFr, (buildFramesGo l (f : Int) sec fuel).getLast? = some lastFr ∧
        lastFr.length + f * ((buildFramesGo l (f : Int) sec fuel).length - 1) =
          l.length - sec * f) := by
  intro fuel
  induction fuel with
  | zero =>
    intro sec l hle hlt
    rw [Nat.add_zero] at hle
    exact absurd hlt (Nat.not_lt.mpr hle)
  | succ fuel ih =>
    intro sec l hle hlt
    have hguard : 0 < (f : Int) ∧ ((sec : Nat) : Int) * (f : Int) < (l.length : Int) :=
      ⟨by exact_mod_cast hf, by exact_mod_cast hlt⟩
    have hframe : jsSlice l ((f : Int) * (sec : Int)) ((f : Int) * ((sec : Int) + 1)) =
        (l.drop (sec * f)).take f := slice_chunk l f sec hf
    unfold buildFramesGo
    rw [if_pos hguard, hframe]
    rcases Nat.lt_or_ge ((sec + 1) * f) l.length with hnext | hnext
    · -- the loop runs at least once more
      have hle' : l.length ≤ (sec + 1) * f + fuel := by
        rw [Nat.succ_mul]
        rw [Nat.add_succ] at hle
        omega
      obtain ⟨hlen, hjoin, hmid, lastFr, hlast, hlastlen⟩ := ih (sec + 1) l hle' hnext
      have hfull : ((l.drop (sec * f)).take f).length = f := by
        rw [List.length_take, List.length_drop]
        rw [Nat.succ_mul] at hnext
        generalize sec * f = A at hnext
        omega
      rcases hr : buildFramesGo l (f : Int) (sec + 1) fuel with _ | ⟨x, xs⟩
      · rw [hr] at hlast
        simp at hlast
      · rw [hr] at hlen hjoin hmid hlast hlastlen
        refine ⟨?_, ?_, ?_, lastFr, ?_, ?_⟩
        · -- length
          rw [List.length_cons, hlen]
          rw [Nat.succ_mul] at hnext
          generalize hA : sec * f = A at hnext ⊢
          have e1 : l.length - (sec + 1) * f + f - 1 = (l.length - A - f - 1) + f := by
            rw [Nat.succ_mul, hA]
            omega
          have e2 : l.length - A + f - 1 = (l.length - A - 1) + f := by omega
          have e3 : l.length - A - 1 = (l.length - A - f - 1) + f := by omega
          rw [e1, e2, Nat.add_div_right _ hf, Nat.add_div_right _ hf, e3,
            Nat.add_div_right _ hf]
        · -- flatten
          rw [List.flatten_cons, hjoin]
          have e1 : l.drop ((sec + 1) * f) = (l.drop (sec * f)).drop f := by
            rw [List.drop_drop]
            congr 1
            rw [Nat.succ_mul]
          rw [e1, List.take_append_drop]
        · -- middle frames
          intro fr hfr
          rw [List.dropLast_cons₂] at hfr
          rcases List.mem_cons.mp hfr with rfl | hfr'
          · exact hfull
          · exact hmid fr hfr'
        · rw [List.getLast?_cons_cons]
          exact hlast
        · -- last frame length bookkeeping
          have e0 : (x :: xs).length - 1 = xs.length := by simp
          rw [e0] at hlastlen
          rw [List.length_cons, show (x :: xs).length + 1 - 1 = xs.length + 1 from by simp,
            Nat.mul_succ]
          rw [Nat.succ_mul] at hlastlen hnext
          generalize sec * f = A at hlastlen hnext ⊢
          generalize f * xs.length = B at hlastlen ⊢
          omega
    · -- the loop stops after this frame
      have hstop : buildFramesGo l (f : Int) (sec + 1) fuel = [] := by
        apply buildFramesGo_stop
        rintro ⟨-, h2⟩
        have : (sec + 1) * f < l.length := by exact_mod_cast h2
        exact absurd this (Nat.not_lt.mpr hnext)
      rw [hstop]
      have hshort : l.length - sec * f ≤ f := by
        rw [Nat.succ_mul] at hnext
        generalize sec * f = A at hnext
        omega
      have hlenfr : ((l.drop (sec * f)).take f).length = l.length - sec * f := by
        rw [List.length_take, List.length_drop]
        omega
      refine ⟨?_, ?_, ?_, (l.drop (sec * f)).take f, rfl, ?_⟩
      · show 1 = (l.length - sec * f + f - 1) / f
        refine (Nat.div_eq_of_lt_le ?_ ?_).symm <;>
          · generalize sec * f = A at hshort hlt
            omega
      · show (l.drop (sec * f)).take f ++ [].flatten = l.drop (sec * f)
        rw [List.flatten_nil, List.append_nil]
        exact List.take_of_length_le (by rw [List.length_drop]; omega)
      · intro fr hfr
        simp at hfr
      · rw [hlenfr]
        simp

/-- Claim C2: for every tile list with at least one tile and every frame
size F >= 1, the loop of buildFrames partitions tileArr into consecutive
chunks of size F: frameArr has exactly ceil(T/F) = (T + F - 1) / F
frames whose concatenation is tileArr, every frame except possibly the
last has exactly F tiles, and the last frame has T - F*(ceil(T/F) - 1)
tiles. -/
theorem buildFrames_partitions_tiles (l : List α) (f : Nat)
    (hf : 1 ≤ f) (hl : 1 ≤ l.length) :
    (buildFramesArr l (f : Int)).length = (l.length + f - 1) / f ∧
    (buildFramesArr l (f : Int)).flatten = l ∧
    (∀ fr ∈ (buildFramesArr l (f : Int)).dropLast, fr.length = f) ∧
    (∃ lastFr, (buildFramesArr l (f : Int)).getLast? = some lastFr ∧
      lastFr.length = l.length - f * ((buildFramesArr l (f : Int)).length - 1)) := by
  have e : buildFramesArr l (f : Int) = buildFramesGo l (f : Int) 0 l.length := rfl
  obtain ⟨h1, h2, h3, lastFr, h4, h5⟩ :=
    buildFramesGo_spec f hf l.length 0 l (by omega) (by omega)
  rw [e]
  refine ⟨?_, ?_, h3, lastFr, h4, ?_⟩
  · rw [h1]
    congr 1
    omega
  · rw [h2]
    simp
  · generalize hB : f * ((buildFramesGo l (f : Int) 0 l.length).length - 1) = B at h5 ⊢
    omega

/-- Witness for claim C2: five tiles, two per frame — frames
[[0,1],[2,3],[4]], ceil(5/2) = 3 frames, last frame 5 - 2*2 = 1 tile. -/
theorem buildFrames_partitions_tiles_inst :
    buildFramesArr ([0, 1, 2, 3, 4] : List Nat) ((2 : Nat) : Int) = [[0, 1], [2, 3], [4]] ∧
    (buildFramesArr ([0, 1, 2, 3, 4] : List Nat) ((2 : Nat) : Int)).length =
      (([0, 1, 2, 3, 4] : List Nat).length + 2 - 1) / 2 ∧
    (buildFramesArr ([0, 1, 2, 3, 4] : List Nat) ((2 : Nat) : Int)).flatten = [0, 1, 2, 3, 4] ∧
    (∃ lastFr, (buildFramesArr ([0, 1, 2, 3, 4] : List Nat) ((2 : Nat) : Int)).getLast? =
        some lastFr ∧
      lastFr.length = ([0, 1, 2, 3, 4] : List Nat).length -
        2 * ((buildFramesArr ([0, 1, 2, 3, 4] : List Nat) ((2 : Nat) : Int)).length - 1)) :=
  ⟨by decide,
    (buildFrames_partitions_tiles [0, 1, 2, 3, 4] 2 (by decide) (by decide)).1,
    (buildFrames_partitions_tiles [0, 1, 2, 3, 4] 2 (by decide) (by decide)).2.1,
    (buildFrames_partitions_tiles [0, 1, 2, 3, 4] 2 (by decide) (by decide)).2.2.2⟩

theorem le_mul_ceilDivInt (a b : Int) (hb : 0 < b) : a ≤ b * ceilDivInt a b := by
  unfold ceilDivInt
  have h1 : 0 ≤ (-a).fmod b := Int.fmod_nonneg' (-a) hb
  have h2 := Int.fdiv_add_fmod (-a) b
  nlinarith

/-- Claim C5, counterexample: with five tiles and two per frame
(curFrameLength = 3), jumpToFrame(4) does not synchronize to the
clamped index min(max((4-1)*2, 0), 5-2) = 3: the frame number 4 exceeds
curFrameLength, so the call returns early and the index stays 0. -/
theorem jumpToFrame_ignores_overlarge_frame :
    ((jumpToFrame carFive 4).1).state.index = 0 ∧
    ((jumpToFrame carFive 4).1).state.index ≠
      min (max (((4 : Int) - 1) * carFive.options.tilesPerFrame) 0)
        ((carFive.state.curTileLength : Int) - carFive.options.tilesPerFrame) := by
  decide

/-- Claim C5 (amended: restricted to frame numbers n ≤ curFrameLength,
with no animation in flight and tilesPerFrame ≤ curTileLength): in
frame-increment mode jumpToFrame(n) synchronizes the carousel to the
tile index (n-1)*tilesPerFrame clamped to
[0, curTileLength - tilesPerFrame]; for n > curFrameLength the call
returns without synchronizing (claim C10). -/
theorem jumpToFrame_maps_and_clamps (c : Carousel α)
    (hanim : c.animating = false)
    (hmode : c.options.incrementMode = "frame")
    (hFT : c.options.tilesPerFrame ≤ (c.state.curTileLength : Int))
    (n : Int) (hn : n ≤ c.state.curFrameLength) :
    ((jumpToFrame c n).1).state.index =
      min (max ((n - 1) * c.options.tilesPerFrame) 0)
        ((c.state.curTileLength : Int) - c.options.tilesPerFrame) := by
  have h1 : (("frame" : String) == "frame") = true := by decide
  have h2 : (("frame" : String) == "tile") = false := by decide
  have h3 : decide (c.state.curFrameLength < n) = false := decide_eq_false (not_lt.mpr hn)
  simp only [jumpToFrame, hmode, h1, h2, h3, Bool.false_and, Bool.and_false, Bool.false_or,
    Bool.or_false, Bool.false_eq_true, if_false]
  rw [syncState_index c _ true hanim]
  have e : (n - 1) * c.options.tilesPerFrame =
      n * c.options.tilesPerFrame - c.options.tilesPerFrame := by ring
  rw [e]
  generalize n * c.options.tilesPerFrame - c.options.tilesPerFrame = m
  split_ifs <;> omega

/-- Witness for the amended claim C5: jumpToFrame(3) on five tiles with
two per frame lands on index 3 = min(max((3-1)*2, 0), 5-2), and
jumpToFrame(0) clamps up to index 0. -/
theorem jumpToFrame_maps_and_clamps_inst :
    (3 : Int) ≤ carFive.state.curFrameLength ∧
    ((jumpToFrame carFive 3).1).state.index =
      min (max (((3 : Int) - 1) * carFive.options.tilesPerFrame) 0)
        ((carFive.state.curTileLength : Int) - carFive.options.tilesPerFrame) ∧
    ((jumpToFrame carFive 0).1).state.index =
      min (max (((0 : Int) - 1) * carFive.options.tilesPerFrame) 0)
        ((carFive.state.curTileLength : Int) - carFive.options.tilesPerFrame) :=
  ⟨by decide,
    jumpToFrame_maps_and_clamps carFive (by decide) (by decide) (by decide) 3 (by decide),
    jumpToFrame_maps_and_clamps carFive (by decide) (by decide) (by decide) 0 (by decide)⟩

/-- Claim C4: for a consistent frame-increment carousel (curTileLength
is the tile count, curFrameLength = ceil(T/F), tileDelta = F*ceil(T/F)-T,
1 ≤ F ≤ T) with no animation in flight: the synchronized curFrame is
always the slice [index, index + tilesPerFrame) of tileArr at the
synchronized (clamped) index; and navigating to the last frame with a
non-zero tileDelta lands on index (k-1)*F - tileDelta — the
frame-aligned start shifted left by tileDelta — so curFrame is the
final full-width window of tileArr, never a short trailing frame. -/
theorem last_frame_shifted_by_tileDelta (c : Carousel α)
    (hanim : c.animating = false)
    (hmode : c.options.incrementMode = "frame")
    (hlen : c.state.curTileLength = c.state.tileArr.length)
    (hF : 1 ≤ c.options.tilesPerFrame)
    (hFT : c.options.tilesPerFrame ≤ (c.state.curTileLength : Int))
    (hk : c.state.curFrameLength =
      ceilDivInt (c.state.curTileLength : Int) c.options.tilesPerFrame)
    (hd : c.state.tileDelta =
      c.options.tilesPerFrame * c.state.curFrameLength - (c.state.curTileLength : Int)) :
    (∀ (i : Int) (a : Bool), 0 ≤ i →
        i + c.options.tilesPerFrame ≤ (c.state.curTileLength : Int) →
        (syncState c i a).state.curFrame =
          some ((c.state.tileArr.drop i.toNat).take c.options.tilesPerFrame.toNat)) ∧
    (c.state.tileDelta ≠ 0 →
        ((jumpToFrame c c.state.curFrameLength).1).state.index =
          (c.state.curFrameLength - 1) * c.options.tilesPerFrame - c.state.tileDelta ∧
        ((jumpToFrame c c.state.curFrameLength).1).state.curFrame =
          some ((c.state.tileArr.drop
              (c.state.curTileLength - c.options.tilesPerFrame.toNat)).take
            c.options.tilesPerFrame.toNat) ∧
        ∃ fr, ((jumpToFrame c c.state.curFrameLength).1).state.curFrame = some fr ∧
          fr.length = c.options.tilesPerFrame.toNat) := by
  have hc := le_mul_ceilDivInt (c.state.curTileLength : Int) c.options.tilesPerFrame
    (by omega)
  rw [← hk] at hc
  constructor
  · intro i a h0 h1
    rw [syncState_curFrame c i a hanim, if_neg (by omega), if_neg (by omega),
      jsSlice_of_nonneg _ _ _ h0 (by omega)]
    congr 2
    omega
  · intro hdne
    have hd0 : 0 < c.state.tileDelta := by
      generalize c.options.tilesPerFrame * c.state.curFrameLength = P at hc hd
      omega
    have hcomm : c.state.curFrameLength * c.options.tilesPerFrame =
        c.options.tilesPerFrame * c.state.curFrameLength := mul_comm _ _
    have h1 : (("frame" : String) == "frame") = true := by decide
    have h2 : (("frame" : String) == "tile") = false := by decide
    have h3 : decide (c.state.curFrameLength < c.state.curFrameLength) = false := by simp
    have hidx : (if c.state.curFrameLength * c.options.tilesPerFrame -
          c.options.tilesPerFrame < 0 then 0
        else c.state.curFrameLength * c.options.tilesPerFrame - c.options.tilesPerFrame) =
        c.state.curFrameLength * c.options.tilesPerFrame - c.options.tilesPerFrame := by
      rw [if_neg]
      rw [hcomm]
      generalize c.options.tilesPerFrame * c.state.curFrameLength = P at hc hd
      omega
    have hmain : ((jumpToFrame c c.state.curFrameLength).1) =
        syncState c (c.state.curFrameLength * c.options.tilesPerFrame -
          c.options.tilesPerFrame) true := by
      simp only [jumpToFrame, hmode, h1, h2, h3, eq_self_iff_true, if_true,
        Bool.false_and, Bool.and_false, Bool.false_or, Bool.or_false,
        Bool.false_eq_true, if_false, hidx]
    have hclamp : c.state.curFrameLength * c.options.tilesPerFrame -
        c.options.tilesPerFrame > (c.state.curTileLength : Int) - c.options.tilesPerFrame := by
      rw [hcomm]
      generalize c.options.tilesPerFrame * c.state.curFrameLength = P at hc hd
      omega
    have hcf : ((jumpToFrame c c.state.curFrameLength).1).state.curFrame =
        some ((c.state.tileArr.drop
            (c.state.curTileLength - c.options.tilesPerFrame.toNat)).take
          c.options.tilesPerFrame.toNat) := by
      rw [hmain]
      rw [syncState_curFrame c _ true hanim]
      rw [if_pos hclamp]
      rw [jsSlice_of_nonneg c.state.tileArr
        ((c.state.curTileLength : Int) - c.options.tilesPerFrame)
        (c.options.tilesPerFrame + ((c.state.curTileLength : Int) - c.options.tilesPerFrame))
        (by omega) (by omega)]
      have e1 : ((c.state.curTileLength : Int) - c.options.tilesPerFrame).toNat =
          c.state.curTileLength - c.options.tilesPerFrame.toNat := by omega
      have e2 : (c.options.tilesPerFrame +
            ((c.state.curTileLength : Int) - c.options.tilesPerFrame)).toNat -
          ((c.state.curTileLength : Int) - c.options.tilesPerFrame).toNat =
          c.options.tilesPerFrame.toNat := by omega
      rw [e2, e1]
    refine ⟨?_, hcf, _, hcf, ?_⟩
    · rw [hmain, syncState_index c _ true hanim, if_pos hclamp]
      have e : (c.state.curFrameLength - 1) * c.options.tilesPerFrame =
          c.options.tilesPerFrame * c.state.curFrameLength - c.options.tilesPerFrame := by
        ring
      rw [e]
      generalize c.options.tilesPerFrame * c.state.curFrameLength = P at hc hd
      omega
    · rw [List.length_take, List.length_drop, ← hlen]
      omega

/-- Witness for claim C4 at the spec's example: five tiles, two per
frame, tileDelta 1; jumping to the last frame (frame number 3) lands on
index 3 = (3-1)*2 - 1 and curFrame = [3, 4] — the full-width window,
not the short frame [4]; and an in-range synchronization slices
[index, index + 2). -/
theorem last_frame_shifted_by_tileDelta_inst :
    carFive.state.tileDelta ≠ 0 ∧
    ((jumpToFrame carFive carFive.state.curFrameLength).1).state.index =
      (carFive.state.curFrameLength - 1) * carFive.options.tilesPerFrame -
        carFive.state.tileDelta ∧
    ((jumpToFrame carFive carFive.state.curFrameLength).1).state.curFrame =
      some ((carFive.state.tileArr.drop
          (carFive.state.curTileLength - carFive.options.tilesPerFrame.toNat)).take
        carFive.options.tilesPerFrame.toNat) ∧
    (∃ fr, ((jumpToFrame carFive carFive.state.curFrameLength).1).state.curFrame = some fr ∧
      fr.length = carFive.options.tilesPerFrame.toNat) ∧
    (syncState carFive 2 false).state.curFrame =
      some ((carFive.state.tileArr.drop (2 : Int).toNat).take
        carFive.options.tilesPerFrame.toNat) ∧
    ((jumpToFrame carFive 3).1).state.curFrame = some [3, 4] :=
  ⟨by decide,
    ((last_frame_shifted_by_tileDelta carFive (by decide) (by decide) (by decide) (by decide)
        (by decide) (by decide) (by decide)).2 (by decide)).1,
    ((last_frame_shifted_by_tileDelta carFive (by decide) (by decide) (by decide) (by decide)
        (by decide) (by decide) (by decide)).2 (by decide)).2.1,
    ((last_frame_shifted_by_tileDelta carFive (by decide) (by decide) (by decide) (by decide)
        (by decide) (by decide) (by decide)).2 (by decide)).2.2,
    (last_frame_shifted_by_tileDelta carFive (by decide) (by decide) (by decide) (by decide)
        (by decide) (by decide) (by decide)).1 2 false (by decide) (by decide),
    by decide⟩

/-- Claim C6, counterexample: one tile with two tiles per frame and
preventNavDisable set — the "only one frame" branch of buildNavigation
does not consult preventNavDisable, so both buttons come out disabled
even though the claim says no button is disabled when the flag is
set. -/
theorem buildNavigation_disables_despite_preventNavDisable :
    carOnePrevent.options.preventNavDisable = true ∧
    carOnePrevent.prevDisabled = true ∧
    carOnePrevent.nextDisabled = true ∧
    (buildNavigation carOnePrevent).prevDisabled = true ∧
    (buildNavigation carOnePrevent).nextDisabled = true := by
  decide

/-- Claim C6 (amended): when preventNavDisable is unset,
updateNavigation disables the previous button exactly when index is 0
and the next button exactly when index + tilesPerFrame >= curTileLength
(hence both when the tiles fit in one frame and index is 0); when the
flag is set, updateNavigation leaves both buttons unchanged.
buildNavigation disables both buttons whenever
curTileLength <= tilesPerFrame, regardless of preventNavDisable;
otherwise, with the flag unset it disables exactly the previous button
at index 0, and with the flag set it disables nothing. -/
theorem nav_disabled_state_spec (c : Carousel α) :
    (c.options.preventNavDisable = false →
      ((updateNavigation c).prevDisabled = true ↔ c.state.index = 0) ∧
      ((updateNavigation c).nextDisabled = true ↔
        (c.state.curTileLength : Int) ≤ c.state.index + c.options.tilesPerFrame)) ∧
    (c.options.preventNavDisable = true → updateNavigation c = c) ∧
    ((c.state.curTileLength : Int) ≤ c.options.tilesPerFrame →
      (buildNavigation c).prevDisabled = true ∧ (buildNavigation c).nextDisabled = true) ∧
    (c.options.preventNavDisable = false →
      ((buildNavigation c).prevDisabled = true ↔
        ((c.state.curTileLength : Int) ≤ c.options.tilesPerFrame ∨ c.state.index = 0)) ∧
      ((buildNavigation c).nextDisabled = true ↔
        (c.state.curTileLength : Int) ≤ c.options.tilesPerFrame)) ∧
    (c.options.preventNavDisable = true →
      c.options.tilesPerFrame < (c.state.curTileLength : Int) →
      (buildNavigation c).prevDisabled = false ∧ (buildNavigation c).nextDisabled = false) := by
  refine ⟨?_, ?_, ?_, ?_, ?_⟩
  · intro hp
    simp only [updateNavigation, hp, Bool.false_eq_true, if_false]
    constructor
    · simp [beq_iff_eq]
    · simp [decide_eq_true_eq]
  · intro hp
    simp only [updateNavigation, hp, if_true]
  · intro h
    simp only [buildNavigation, decide_eq_true h]
    constructor
    · split <;> rfl
    · trivial
  · intro hp
    simp only [buildNavigation, hp, Bool.not_false, Bool.true_and]
    constructor
    · constructor
      · intro h
        by_cases hi : c.state.index = 0
        · exact Or.inr hi
        · left
          rw [if_neg (by simpa [beq_iff_eq] using hi)] at h
          exact of_decide_eq_true h
      · intro h
        rcases h with h | h
        · split
          · rfl
          · exact decide_eq_true h
        · rw [if_pos (by simpa [beq_iff_eq] using h)]
      
    · simp [decide_eq_true_eq]
  · intro hp h
    simp only [buildNavigation, hp, Bool.not_true, Bool.false_and, Bool.false_eq_true,
      if_false]
    constructor <;> exact decide_eq_false (not_le.mpr h)

/-- Witness for the amended claim C6 at concrete carousels: five tiles
with two per frame at index 0 (flag unset), and one tile with two per
frame with the flag set. -/
theorem nav_disabled_state_spec_inst :
    carFive.options.preventNavDisable = false ∧
    ((updateNavigation carFive).prevDisabled = true ↔ carFive.state.index = 0) ∧
    ((updateNavigation carFive).nextDisabled = true ↔
      (carFive.state.curTileLength : Int) ≤ carFive.state.index +
        carFive.options.tilesPerFrame) ∧
    carOnePrevent.options.preventNavDisable = true ∧
    updateNavigation carOnePrevent = carOnePrevent ∧
    ((carOnePrevent.state.curTileLength : Int) ≤ carOnePrevent.options.tilesPerFrame) ∧
    (buildNavigation carOnePrevent).prevDisabled = true ∧
    (buildNavigation carOnePrevent).nextDisabled = true :=
  ⟨by decide,
    ((nav_disabled_state_spec carFive).1 (by decide)).1,
    ((nav_disabled_state_spec carFive).1 (by decide)).2,
    by decide,
    (nav_disabled_state_spec carOnePrevent).2.1 (by decide),
    by decide,
    ((nav_disabled_state_spec carOnePrevent).2.2.1 (by decide)).1,
    ((nav_disabled_state_spec carOnePrevent).2.2.1 (by decide)).2⟩

/-- Claim C8, counterexample: updateOptions with an (empty) options
object returns the merged options object, and updateState with an
(empty) state object returns the merged state object — neither returns
the root carousel element, so those two methods cannot be chained on
the element. -/
theorem updateOptions_returns_options_not_element :
    (updateOptions carFive (JSArg.obj {})).2 ≠ (ApiRet.element : ApiRet Nat) ∧
    (updateState carFive (JSArg.obj {})).2 ≠ (ApiRet.element : ApiRet Nat) := by
  decide

/-- Claim C8 (amended): nextFrame, prevFrame, jumpToFrame and reset
each return the root carousel element for chaining; updateOptions
returns the merged options object and updateState the merged state
object when given a plain object, and false for any other argument. -/
theorem api_return_values (c : Carousel α) (n : Int)
    (p : OptionsPatch) (sp : StatePatch α)
    (v : JSArg OptionsPatch) (w : JSArg (StatePatch α))
    (hv : getObjType v ≠ "[object Object]")
    (hw : getObjType w ≠ "[object Object]") :
    (nextFrame c).2 = ApiRet.element ∧
    (prevFrame c).2 = ApiRet.element ∧
    (jumpToFrame c n).2 = ApiRet.element ∧
    (reset c).2 = ApiRet.element ∧
    (updateOptions c (JSArg.obj p)).2 =
      ApiRet.optionsObj (updateOptions c (JSArg.obj p)).1.options ∧
    (updateState c (JSArg.obj sp)).2 =
      ApiRet.stateObj (updateState c (JSArg.obj sp)).1.state ∧
    (updateOptions c v).2 = ApiRet.jsFalse ∧
    (updateState c w).2 = ApiRet.jsFalse := by
  refine ⟨rfl, rfl, ?_, rfl, ?_, rfl, ?_, ?_⟩
  · simp only [jumpToFrame]
    split <;> split <;> split <;> rfl
  · rfl
  · unfold updateOptions
    rw [if_neg (by simpa using hv)]
  · unfold updateState
    rw [if_neg (by simpa using hw)]

/-- Witness for the amended claim C8 at concrete inputs. -/
theorem api_return_values_inst :
    getObjType (JSArg.number 1 : JSArg OptionsPatch) ≠ "[object Object]" ∧
    getObjType (JSArg.strVal "x" : JSArg (StatePatch Nat)) ≠ "[object Object]" ∧
    ((nextFrame carFive).2 = ApiRet.element ∧
      (prevFrame carFive).2 = ApiRet.element ∧
      (jumpToFrame carFive 2).2 = ApiRet.element ∧
      (reset carFive).2 = ApiRet.element ∧
      (updateOptions carFive (JSArg.obj {})).2 =
        ApiRet.optionsObj (updateOptions carFive (JSArg.obj {})).1.options ∧
      (updateState carFive (JSArg.obj {})).2 =
        ApiRet.stateObj (updateState carFive (JSArg.obj {})).1.state ∧
      (updateOptions carFive (JSArg.number 1)).2 = ApiRet.jsFalse ∧
      (updateState carFive (JSArg.strVal "x")).2 = ApiRet.jsFalse) :=
  ⟨by decide, by decide,
    api_return_values carFive 2 {} {} (JSArg.number 1) (JSArg.strVal "x")
      (by decide) (by decide)⟩
end CarouselJS
